import Mathlib

/-!
Formal model of the dockhand-dash container auto-update pipeline
(src/lib/server/scheduler/tasks/container-update.ts) and of the
self-update progress log decoder
(src/routes/api/self-update/progress/+server.ts).

External collaborators (container engine, registry client, vulnerability
scanner, stack definition store) are modelled by an environment record
that supplies the outcome of each fallible call site.  The engine state
(tag pointers, image store, container list) is threaded explicitly and
every observable action is recorded in an event trace.  The ledger
(schedule-execution records) and event-notification dispatch are
database-side collaborators with no failure contract in the design
document; they are modelled as total.  Purely informational log lines are
not modelled, except the warning lines that stated properties refer to.
-/

namespace Dockhand

/-! ## Vulnerability data and the gate (update-utils) -/

/-- Counts of vulnerabilities by severity tier, as produced by the scanner. -/
structure VulnSummary where
  critical : Nat
  high : Nat
  medium : Nat
  low : Nat
  negligible : Nat
  unk : Nat
deriving DecidableEq

def VulnSummary.total (s : VulnSummary) : Nat :=
  s.critical + s.high + s.medium + s.low + s.negligible + s.unk

inductive Severity
  | critical
  | high
  | medium
  | low
deriving DecidableEq

def VulnSummary.countAtOrAbove (s : VulnSummary) : Severity → Nat
  | .critical => s.critical
  | .high => s.critical + s.high
  | .medium => s.critical + s.high + s.medium
  | .low => s.critical + s.high + s.medium + s.low

/-- Modelled from the spec: the configurable vulnerability criterion
(`never` / `anyKnown` / `moreThanCurrent` / severity-threshold variants);
the concrete enumeration lives in the database layer, which is not part
of the traced sources. -/
inductive Criterion
  | never
  | anyKnown
  | moreThanCurrent
  | atOrAbove (sev : Severity)
deriving DecidableEq

structure GateDecision where
  blocked : Bool
  reason : String
deriving DecidableEq

/-- Modelled from the spec: `shouldBlockUpdate` lives in update-utils,
which is not among the traced sources.  Per the design document the gate
takes the new image scan summary, the criterion, and (only for
`moreThanCurrent`) the current image summary, and decides allow/block as
a pure function of those inputs. -/
def shouldBlockUpdate (c : Criterion) (newSummary : VulnSummary)
    (currentSummary : Option VulnSummary) : GateDecision :=
  match c with
  | .never => ⟨false, ""⟩
  | .anyKnown =>
    if 0 < newSummary.total then
      ⟨true, "known vulnerabilities found in new image"⟩
    else ⟨false, ""⟩
  | .moreThanCurrent =>
    match currentSummary with
    | none => ⟨false, ""⟩
    | some cur =>
      if cur.total < newSummary.total then
        ⟨true, "new image has more vulnerabilities than current image"⟩
      else ⟨false, ""⟩
  | .atOrAbove sev =>
    if 0 < newSummary.countAtOrAbove sev then
      ⟨true, "vulnerabilities at or above configured severity found"⟩
    else ⟨false, ""⟩

/-- One scanner result, as consumed by the update task. -/
structure ScanResult where
  scanner : String
  imageName : String
  scannedAt : String
  summary : VulnSummary
deriving DecidableEq

def addSummary (a b : VulnSummary) : VulnSummary :=
  ⟨a.critical + b.critical, a.high + b.high, a.medium + b.medium,
   a.low + b.low, a.negligible + b.negligible, a.unk + b.unk⟩

/-- Modelled from the spec: `combineScanSummaries` (update-utils, not among
the traced sources) merges per-scanner summaries into one summary. -/
def combineScanSummaries (rs : List ScanResult) : VulnSummary :=
  rs.foldl (fun acc r => addSummary acc r.summary) ⟨0, 0, 0, 0, 0, 0⟩

/-! ## Image references (docker module helpers) -/

/-- Splits a character list at its last colon, returning the parts before
and after it, or none when no colon occurs. -/
def splitLastColonAux : List Char → Option (List Char × List Char)
  | [] => none
  | c :: rest =>
    match splitLastColonAux rest with
    | some (l, r) => some (c :: l, r)
    | none => if c = ':' then some ([], rest) else none

/-- Modelled from the spec: `parseImageNameAndTag` (update-utils, not among
the traced sources) splits `repo[:tag]` at the last colon, defaulting the
tag to `latest`; a colon inside a registry host component (followed by a
slash) is not a tag separator. -/
def parseImageNameAndTag (s : String) : String × String :=
  match splitLastColonAux s.data with
  | some (l, r) => if '/' ∈ r then (s, "latest") else (String.mk l, String.mk r)
  | none => (s, "latest")

/-- Canonical `repo:tag` key under which the engine stores a tag pointer. -/
def normalizeRef (s : String) : String :=
  let p := parseImageNameAndTag s
  p.1 ++ ":" ++ p.2

def tempSuffix : String := "-dockhand-scan"

/-- Modelled from the spec: `getTempImageTag` (docker module, not among the
traced sources) derives a deterministic non-production tag from an image
reference, used to park the unpromoted pulled image. -/
def getTempImageTag (s : String) : String :=
  let p := parseImageNameAndTag s
  p.1 ++ ":" ++ p.2 ++ tempSuffix

/-- Modelled from the spec: `isDigestBasedImage` (docker module, not among
the traced sources) detects digest-pinned references of the form
`repo@sha256:...`. -/
def isDigestBasedImage (s : String) : Bool :=
  s.data.contains '@'

inductive SysKind
  | dockhand
  | hawser
deriving DecidableEq

/-- Splits a character list on a separator character. -/
def splitOnChar (sep : Char) : List Char → List (List Char)
  | [] => [[]]
  | c :: rest =>
    match splitOnChar sep rest with
    | [] => [[c]]
    | h :: t => if c = sep then [] :: h :: t else (c :: h) :: t

/-- Modelled from the spec: `isSystemContainer` (update-utils, not among
the traced sources) recognises the orchestrator itself (Dockhand) and its
agent (Hawser) from the image repository name. -/
def isSystemContainer (im : String) : Option SysKind :=
  let repo := (parseImageNameAndTag im).1
  let last := String.mk ((splitOnChar '/' repo.data).getLastD [])
  if last = "dockhand" then some .dockhand
  else if last = "hawser" then some .hawser
  else none

/-! ## Engine state, events and environment -/

/-- Per-network configuration from `NetworkSettings.Networks` inspection
output. -/
structure NetConf where
  aliases : List String
  dnsNames : List String
  ipv4 : Option String
  ipv6 : Option String
  gwPriority : Option Int
deriving DecidableEq

/-- One container as known to the engine, carrying the fields the update
task reads from `inspectContainer`. -/
structure ContainerC where
  id : String
  name : String
  image : String
  configImage : Option String
  running : Bool
  labels : List (String × String)
  networkMode : String
  networks : List (String × NetConf)
deriving DecidableEq

def getLabel (c : ContainerC) (k : String) : Option String :=
  (c.labels.find? (fun p => p.1 == k)).map (fun p => p.2)

/-- Engine-side state: tag pointers (`repo:tag` to image id), the image
store, and the container list. -/
structure EngineState where
  tags : String → Option String
  images : String → Bool
  containers : List ContainerC

inductive ExecStatus
  | success
  | failed
  | skipped
deriving DecidableEq

/-- A terminal write to the schedule-execution ledger: status plus the
detail fields the claims refer to. -/
structure TermWrite where
  status : ExecStatus
  reason : Option String
  blockReason : Option String
  errorMessage : Option String
deriving DecidableEq

/-- Observable actions of one update run. -/
inductive Ev
  | listContainersEv
  | inspectEv
  | registryCheck
  | pull
  | getImageId
  | tagOp (id : String) (repo : String) (tag : String)
  | removeTemp (ref : String)
  | scanNewImage
  | scanCurrentImage
  | stackLookup
  | composeUp
  | warnDegradedFidelity
  | warnNetworkConnectFailed (net : String)
  | stopEv
  | removeEv
  | createEv
  | connectEv (net : String)
  | startEv
  | writeTerminal (t : TermWrite)
  | notify (kind : String)
deriving DecidableEq

structure World where
  engine : EngineState
  trace : List Ev

def emit (w : World) (e : Ev) : World :=
  { engine := w.engine, trace := w.trace ++ [e] }

@[simp] theorem emit_engine (w : World) (e : Ev) : (emit w e).engine = w.engine := rfl

@[simp] theorem emit_trace (w : World) (e : Ev) : (emit w e).trace = w.trace ++ [e] := rfl

/-- Result shape of `checkImageUpdateAvailable` (docker module, not among
the traced sources); fields as consumed by the update task. -/
structure RegistryCheckResult where
  hasUpdate : Bool
  registryDigest : Option String
  isLocalImage : Bool
  error : Option String
deriving DecidableEq

/-- Result shape of `startStack` (stacks module, not among the traced
sources); fields as consumed by `updateStackContainer`. -/
structure StackResult where
  success : Bool
  output : Option String
  error : Option String
deriving DecidableEq

/-- Outcome of every fallible external call site, one field per call site
in source order.  A run of the update task is a pure function of this
record and the initial engine state. -/
structure Env where
  listContainersCall : Except String Unit
  inspectCall : Except String Unit
  scannerName : String
  criteria : Criterion
  registryCheckCall : Except String RegistryCheckResult
  pullSafe : Except String Unit
  pulledImageId : String
  getImageIdCall : Except String Unit
  tagRestore : Except String Unit
  tagTemp : Except String Unit
  scanNew : Except String (List ScanResult)
  cachedScan : Except String (Option VulnSummary)
  scanCurrent : Except String (List ScanResult)
  removeTempBlock : Except String Unit
  removeTempScanFail : Except String Unit
  tagPromote : Except String Unit
  removeTempCleanup : Except String Unit
  pullPlain : Except String Unit
  stackCompose : Except String (Option String)
  stackUp : Except String StackResult
  rListCall : Except String Unit
  rInspectCall : Except String Unit
  rStop : Except String Unit
  rRemove : Except String Unit
  rCreate : Except String String
  rConnect : String → Except String Unit
  rStart : Except String Unit

/-! ## Engine-state transitions -/

/-- Pulling `key` stores the image served by the registry and re-points the
production tag at it. -/
def applyPull (s : EngineState) (key newId : String) : EngineState :=
  { tags := fun k => if k = key then some newId else s.tags k,
    images := fun i => if i = newId then true else s.images i,
    containers := s.containers }

def setTag (s : EngineState) (key id : String) : EngineState :=
  { tags := fun k => if k = key then some id else s.tags k,
    images := s.images,
    containers := s.containers }

/-- Modelled from the spec: `removeTempImage` (docker module, not among the
traced sources) discards the staged image.  Called with a tag reference it
untags that reference (at its call site the production tag still
references the image, so the image itself is kept); called with an image
id it removes the image together with any tags pointing at it. -/
def removeTempImageApply (s : EngineState) (ref : String) : EngineState :=
  let key := normalizeRef ref
  match s.tags key with
  | some _ =>
    { tags := fun k => if k = key then none else s.tags k,
      images := s.images,
      containers := s.containers }
  | none =>
    { tags := fun k => if s.tags k = some ref then none else s.tags k,
      images := fun i => if i = ref then false else s.images i,
      containers := s.containers }

def addContainer (s : EngineState) (c : ContainerC) : EngineState :=
  { tags := s.tags, images := s.images, containers := s.containers ++ [c] }

def setRunning (s : EngineState) (id : String) (b : Bool) : EngineState :=
  { tags := s.tags, images := s.images,
    containers := s.containers.map (fun c => if c.id = id then { c with running := b } else c) }

def removeContainerApply (s : EngineState) (id : String) : EngineState :=
  { tags := s.tags, images := s.images,
    containers := s.containers.filter (fun c => !(c.id == id)) }

/-! ## Container recreation (container-update.ts lines 575-739) -/

/-- A secondary network scheduled for post-creation reconnection
(container-update.ts lines 622-628). -/
structure NetworkInfo where
  name : String
  aliases : List String
  ipv4 : Option String
  ipv6 : Option String
  gwPriority : Option Int
deriving DecidableEq

/-- The secondary-network extraction loop of `recreateContainer`
(container-update.ts lines 612-676): primary attachments are skipped,
engine-assigned container-id aliases are dropped, and for compose
containers the service and project-service aliases are ensured. -/
def computeAdditionalNetworks (c : ContainerC) : List NetworkInfo :=
  let primaryNetwork := if c.networkMode = "" then "bridge" else c.networkMode
  let shortId := String.mk (c.id.data.take 12)
  let proj := getLabel c "com.docker.compose.project"
  let svc := getLabel c "com.docker.compose.service"
  c.networks.filterMap (fun nn =>
    let netName := nn.1
    let conf := nn.2
    if netName = primaryNetwork ∨
        (primaryNetwork = "bridge" ∧ (netName = "bridge" ∨ netName = "default")) then
      none
    else
      let base := (if 0 < conf.aliases.length then conf.aliases else conf.dnsNames).filter
        (fun a => !(a == c.id || a == shortId))
      let withSvc :=
        match proj, svc with
        | some p, some sv =>
          let l1 := if sv ∈ base then base else base ++ [sv]
          let ps := p ++ "-" ++ sv
          if ps ∈ l1 then l1 else l1 ++ [ps]
        | _, _ => base
      some ⟨netName, withSvc, conf.ipv4, conf.ipv6,
        match conf.gwPriority with
        | some g => if g ≠ 0 then some g else none
        | none => none⟩)

/-- The secondary-network reconnection loop (container-update.ts lines
700-725): a failed connect is logged as a warning and the loop continues. -/
def connectLoop (env : Env) (nets : List NetworkInfo) (w : World) : World :=
  match nets with
  | [] => w
  | n :: rest =>
    let w := emit w (.connectEv n.name)
    let w :=
      match env.rConnect n.name with
      | .error _ => emit w (.warnNetworkConnectFailed n.name)
      | .ok _ => w
    connectLoop env rest w

/-- `recreateContainer` from the removal step onwards (container-update.ts
lines 605-734). -/
def recreateAfterStop (env : Env) (container : ContainerC) (wasRunning : Bool)
    (w : World) : Bool × World :=
  let w := emit w .removeEv
  match env.rRemove with
  | .error _ => (false, w)
  | .ok _ =>
    let w := { w with engine := removeContainerApply w.engine container.id }
    let nets := computeAdditionalNetworks container
    let w := emit w .createEv
    match env.rCreate with
    | .error _ => (false, w)
    | .ok newId =>
      let resolved :=
        (w.engine.tags (normalizeRef (container.configImage.getD container.image))).getD
          container.image
      let newC := { container with id := newId, running := false, image := resolved }
      let w := { w with engine := addContainer w.engine newC }
      let w := connectLoop env nets w
      if wasRunning then
        let w := emit w .startEv
        match env.rStart with
        | .error _ => (false, w)
        | .ok _ => (true, { w with engine := setRunning w.engine newId true })
      else (true, w)

/-- `recreateContainer` (container-update.ts lines 575-739): snapshot the
container, stop it when it was running, remove it, recreate it from the
snapshot, reconnect secondary networks, and start it only when it was
running; any thrown step is caught and reported as `false`. -/
def recreateContainer (env : Env) (containerName : String) (w : World) : Bool × World :=
  let w := emit w .listContainersEv
  match env.rListCall with
  | .error _ => (false, w)
  | .ok _ =>
    match w.engine.containers.find? (fun c => c.name == containerName) with
    | none => (false, w)
    | some container =>
      let w := emit w .inspectEv
      match env.rInspectCall with
      | .error _ => (false, w)
      | .ok _ =>
        let wasRunning := container.running
        if wasRunning then
          let w := emit w .stopEv
          match env.rStop with
          | .error _ => (false, w)
          | .ok _ =>
            let w := { w with engine := setRunning w.engine container.id false }
            recreateAfterStop env container wasRunning w
        else recreateAfterStop env container wasRunning w

/-- `updateStackContainer` (container-update.ts lines 751-800): look up the
stack compose file; when absent report `false` (fallback), otherwise run
the stack convergence and report its success flag; any thrown step is
caught and reported as `false`. -/
def updateStackContainer (env : Env) (w : World) : Bool × World :=
  let w := emit w .stackLookup
  match env.stackCompose with
  | .error _ => (false, w)
  | .ok none => (false, w)
  | .ok (some _) =>
    let w := emit w .composeUp
    match env.stackUp with
    | .error _ => (false, w)
    | .ok res => (res.success, w)

/-! ## The safe-pull phase (container-update.ts lines 231-467) -/

inductive SafePullOut
  | terminal (w : World)
  | proceed (w : World)

def SafePullOut.world : SafePullOut → World
  | .terminal w => w
  | .proceed w => w

def SafePullOut.isTerminal : SafePullOut → Bool
  | .terminal _ => true
  | .proceed _ => false

/-- The `pullError` handler (container-update.ts lines 440-448): mark the
execution failed; no tag restore and no temp cleanup happen here. -/
def pullCatch (w : World) (e : String) : SafePullOut :=
  .terminal (emit w (.writeTerminal ⟨.failed, none, none, some ("Failed to pull image: " ++ e)⟩))

/-- The `scanError` handler (container-update.ts lines 415-428): remove
the temp image, then mark the execution failed; a throw from the removal
itself escapes to the `pullError` handler. -/
def scanCatch (env : Env) (w : World) (newImageId : String) (e : String) : SafePullOut :=
  let w := emit w (.removeTemp newImageId)
  match env.removeTempScanFail with
  | .error e2 => pullCatch w e2
  | .ok _ =>
    let w := { w with engine := removeTempImageApply w.engine newImageId }
    .terminal (emit w (.writeTerminal
      ⟨.failed, none, none, some ("Vulnerability scan failed: " ++ e)⟩))

/-- Approval re-tagging and best-effort temp cleanup (container-update.ts
lines 430-438). -/
def approvedRetag (env : Env) (w : World) (im newImageId tempTag : String) : SafePullOut :=
  let p := parseImageNameAndTag im
  let w := emit w (.tagOp newImageId p.1 p.2)
  match env.tagPromote with
  | .error e => pullCatch w e
  | .ok _ =>
    let w := { w with engine := setTag w.engine (p.1 ++ ":" ++ p.2) newImageId }
    let w := emit w (.removeTemp tempTag)
    match env.removeTempCleanup with
    | .error _ => .proceed w
    | .ok _ => .proceed { w with engine := removeTempImageApply w.engine tempTag }

/-- The current-image summary used by the `moreThanCurrent` criterion
(container-update.ts lines 307-351): cached scan when available, a fresh
scan otherwise; a throw anywhere inside is caught and leaves the summary
absent. -/
def currentSummaryOf (env : Env) : Option VulnSummary :=
  if env.criteria = .moreThanCurrent then
    match env.cachedScan with
    | .error _ => none
    | .ok (some cs) => some cs
    | .ok none =>
      match env.scanCurrent with
      | .error _ => none
      | .ok rs => if 0 < rs.length then some (combineScanSummaries rs) else none
  else none

/-- Emits the current-image scan event exactly when the cache misses and a
fresh scan is performed (container-update.ts line 318). -/
def emitCurrentScanEvent (env : Env) (w : World) : World :=
  if env.criteria = .moreThanCurrent then
    match env.cachedScan with
    | .ok none => emit w .scanCurrentImage
    | _ => w
  else w

/-- The safe-pull phase (container-update.ts lines 231-467): with scanning
enabled, pull under the production tag, restore the production tag to the
current image, park the new image under a temp tag, scan it and gate the
result; with scanning disabled, a plain pull. -/
def safePullPhase (env : Env) (im currentImageId : String) (w : World) : SafePullOut :=
  if env.scannerName ≠ "none" then
    if isDigestBasedImage im then .proceed w
    else
      let tempTag := getTempImageTag im
      let w := emit w .pull
      match env.pullSafe with
      | .error e => pullCatch w e
      | .ok _ =>
        let w := { w with engine := applyPull w.engine (normalizeRef im) env.pulledImageId }
        let w := emit w .getImageId
        match env.getImageIdCall with
        | .error e => pullCatch w e
        | .ok _ =>
          match w.engine.tags (normalizeRef im) with
          | none => pullCatch w "Failed to get new image ID after pull"
          | some newImageId =>
            let p := parseImageNameAndTag im
            let w := emit w (.tagOp currentImageId p.1 p.2)
            match env.tagRestore with
            | .error e => pullCatch w e
            | .ok _ =>
              let w := { w with engine := setTag w.engine (p.1 ++ ":" ++ p.2) currentImageId }
              let tp := parseImageNameAndTag tempTag
              let w := emit w (.tagOp newImageId tp.1 tp.2)
              match env.tagTemp with
              | .error e => pullCatch w e
              | .ok _ =>
                let w := { w with engine := setTag w.engine (tp.1 ++ ":" ++ tp.2) newImageId }
                let w := emit w .scanNewImage
                match env.scanNew with
                | .error e => scanCatch env w newImageId e
                | .ok scanResults =>
                  if 0 < scanResults.length then
                    let scanSummary := combineScanSummaries scanResults
                    let w := emitCurrentScanEvent env w
                    let d := shouldBlockUpdate env.criteria scanSummary (currentSummaryOf env)
                    if d.blocked then
                      let w := emit w (.removeTemp newImageId)
                      match env.removeTempBlock with
                      | .error e => scanCatch env w newImageId e
                      | .ok _ =>
                        let w := { w with engine := removeTempImageApply w.engine newImageId }
                        let w := emit w (.writeTerminal
                          ⟨.skipped, some "vulnerabilities_found", some d.reason, none⟩)
                        .terminal (emit w (.notify "auto_update_blocked"))
                    else approvedRetag env w im newImageId tempTag
                  else approvedRetag env w im newImageId tempTag
  else
    let w := emit w .pull
    match env.pullPlain with
    | .error e =>
      .terminal (emit w (.writeTerminal
        ⟨.failed, none, none, some ("Failed to pull image: " ++ e)⟩))
    | .ok _ => .proceed { w with engine := applyPull w.engine (normalizeRef im) env.pulledImageId }

/-! ## The full update run (container-update.ts lines 50-561) -/

def sysReason : SysKind → String
  | .dockhand => "Cannot auto-update Dockhand itself"
  | .hawser => "Cannot auto-update Hawser agent"

/-- The top-level error handler (container-update.ts lines 545-560). -/
def outerFail (w : World) (e : String) : World :=
  let w := emit w (.writeTerminal ⟨.failed, none, none, some e⟩)
  emit w (.notify "auto_update_failed")

/-- The compose-aware routing and terminal reporting of
`runContainerUpdate` (container-update.ts lines 469-543): stack containers
go through `updateStackContainer`; when that reports failure (unknown
stack, convergence failure or throw) the task logs the degraded-fidelity
warning and falls back to `recreateContainer`; the outcome is recorded as
one success or failed write. -/
def routerPhase (env : Env) (containerName : String) (isStack : Bool) (w : World) : World :=
  let r :=
    if isStack then
      let sr := updateStackContainer env w
      if sr.1 then (true, sr.2)
      else
        let w2 := emit sr.2 .warnDegradedFidelity
        recreateContainer env containerName w2
    else recreateContainer env containerName w
  if r.1 then
    let w := emit r.2 (.writeTerminal ⟨.success, none, none, none⟩)
    emit w (.notify "auto_update_success")
  else
    let w := emit r.2 (.writeTerminal ⟨.failed, none, none, some "Failed to recreate container"⟩)
    emit w (.notify "auto_update_failed")

/-- `runContainerUpdate` (container-update.ts lines 50-561): create the
execution record, locate and inspect the container, skip system and
digest-pinned images, consult the registry, run the safe-pull phase, then
update via stack convergence or recreation and record the terminal
status. -/
def runContainerUpdate (env : Env) (containerName : String) (s0 : EngineState) : World :=
  let w : World := ⟨s0, []⟩
  let w := emit w .listContainersEv
  match env.listContainersCall with
  | .error e => outerFail w e
  | .ok _ =>
    match w.engine.containers.find? (fun c => c.name == containerName) with
    | none => emit w (.writeTerminal ⟨.failed, none, none, some "Container not found"⟩)
    | some container =>
      let w := emit w .inspectEv
      match env.inspectCall with
      | .error e => outerFail w e
      | .ok _ =>
        match container.configImage with
        | none =>
          emit w (.writeTerminal ⟨.failed, none, none, some "Could not determine image name"⟩)
        | some im =>
          match isSystemContainer im with
          | some k => emit w (.writeTerminal ⟨.skipped, some (sysReason k), none, none⟩)
          | none =>
            if isDigestBasedImage im then
              emit w (.writeTerminal ⟨.skipped, some "Image pinned to specific digest", none, none⟩)
            else
              let currentImageId := container.image
              let composeProject := getLabel container "com.docker.compose.project"
              let w := emit w .registryCheck
              match env.registryCheckCall with
              | .error e => outerFail w e
              | .ok rc =>
                if rc.isLocalImage then
                  emit w (.writeTerminal
                    ⟨.skipped, some "Local image - no registry available", none, none⟩)
                else
                  match rc.error with
                  | some err =>
                    emit w (.writeTerminal
                      ⟨.skipped, some ("Registry check failed: " ++ err), none, none⟩)
                  | none =>
                    if rc.hasUpdate then
                      match safePullPhase env im currentImageId w with
                      | .terminal w => w
                      | .proceed w => routerPhase env containerName composeProject.isSome w
                    else
                      emit w (.writeTerminal ⟨.skipped, some "Already up-to-date", none, none⟩)

/-- The terminal ledger writes occurring in a trace, in order. -/
def terminalWrites (tr : List Ev) : List TermWrite :=
  tr.filterMap (fun e => match e with | .writeTerminal t => some t | _ => none)

/-! ## The progress log decoder (self-update/progress/+server.ts lines 21-58) -/

/-- Whether a byte is ASCII whitespace for the purposes of `trim`. -/
def isJsWhitespace (b : Nat) : Bool :=
  b == 32 || b == 9 || b == 10 || b == 13 || b == 12 || b == 11

/-- Byte-level model of `line.trim()` over a decoded line. -/
def jsTrim (l : List Nat) : List Nat :=
  ((l.dropWhile isJsWhitespace).reverse.dropWhile isJsWhitespace).reverse

/-- Byte-level model of `s.split(sep)` for a one-byte separator. -/
def splitOnByte (sep : Nat) : List Nat → List (List Nat)
  | [] => [[]]
  | b :: rest =>
    match splitOnByte sep rest with
    | [] => [[b]]
    | h :: t => if b = sep then [] :: h :: t else (b :: h) :: t

/-- Splitting a decoded chunk into its lines and keeping only those whose
trim is nonempty (the filtering pushes of lines 36-40 and 49-53). -/
def nonBlankLines (l : List Nat) : List (List Nat) :=
  (splitOnByte 10 l).filter (fun x => !(jsTrim x).isEmpty)

/-- Two-complement reinterpretation of a 32-bit pattern, as JavaScript
bitwise operators produce. -/
def jsInt32 (u : Nat) : Int :=
  if u % 2 ^ 32 < 2 ^ 31 then ((u % 2 ^ 32 : Nat) : Int)
  else ((u % 2 ^ 32 : Nat) : Int) - 2 ^ 32

/-- The 4-byte big-endian frame size of line 32, with JavaScript 32-bit
signed shift/or semantics (a first byte of 128 or more yields a negative
size). -/
def dockerFrameSize (b4 b5 b6 b7 : Nat) : Int :=
  jsInt32 (b4 * 2 ^ 24 + b5 * 2 ^ 16 + b6 * 2 ^ 8 + b7)

/-- The frame-consuming loop of `stripDockerLogHeaders`
(self-update/progress/+server.ts lines 25-55): while bytes remain, a
well-formed header frame is consumed and its lines collected, otherwise
the remaining bytes are decoded as plain text and the loop breaks.
Lines are kept as byte lists; the final join of line 57 is presentational
and not modelled. -/
def stripLoop (raw : List Nat) (offset : Nat) : List (List Nat) :=
  if h0 : offset < raw.length then
    if h8 : offset + 8 ≤ raw.length ∧ raw.getD offset 0 ≤ 2 then
      let size := dockerFrameSize (raw.getD (offset + 4) 0) (raw.getD (offset + 5) 0)
        (raw.getD (offset + 6) 0) (raw.getD (offset + 7) 0)
      if hsz : 0 < size ∧ offset + 8 + size.toNat ≤ raw.length then
        nonBlankLines ((raw.drop (offset + 8)).take size.toNat) ++
          stripLoop raw (offset + 8 + size.toNat)
      else nonBlankLines (raw.drop offset)
    else nonBlankLines (raw.drop offset)
  else []
termination_by raw.length - offset
decreasing_by
  have hpos : 0 < size.toNat := by
    have := hsz.1
    omega
  omega

/-- `stripDockerLogHeaders` (self-update/progress/+server.ts lines 21-58),
returning the collected non-blank lines. -/
def stripDockerLogHeaders (raw : List Nat) : List (List Nat) :=
  stripLoop raw 0

/-! ## Basic lemmas about references and traces -/

theorem string_data_append (a b : String) : (a ++ b).data = a.data ++ b.data := by
  cases a
  cases b
  rfl

theorem string_append_assoc (a b c : String) : a ++ b ++ c = a ++ (b ++ c) := by
  cases a
  cases b
  cases c
  show String.mk _ = String.mk _
  rw [List.append_assoc]

theorem string_mk_data (s : String) : String.mk s.data = s := by
  cases s
  rfl

theorem splitLastColonAux_eq_none (u : List Char) (h : ':' ∉ u) :
    splitLastColonAux u = none := by
  induction u with
  | nil => rfl
  | cons c rest ih =>
    have hc : c ≠ ':' := fun hc => h (hc ▸ List.mem_cons_self c rest)
    have hr : ':' ∉ rest := fun hr => h (List.mem_cons_of_mem c hr)
    simp [splitLastColonAux, ih hr, hc]

theorem splitLastColonAux_append (l u : List Char) (h : ':' ∉ u) :
    splitLastColonAux (l ++ ':' :: u) = some (l, u) := by
  induction l with
  | nil => simp [splitLastColonAux, splitLastColonAux_eq_none u h]
  | cons c rest ih => simp [splitLastColonAux, ih]

theorem parse_repo_tag (r t : String) (hc : ':' ∉ t.data) (hs : '/' ∉ t.data) :
    parseImageNameAndTag (r ++ ":" ++ t) = (r, t) := by
  have hdata : (r ++ ":" ++ t).data = r.data ++ ':' :: t.data := by
    rw [string_data_append, string_data_append]
    simp [List.append_assoc]
  rw [parseImageNameAndTag, hdata, splitLastColonAux_append _ _ hc]
  simp [hs, string_mk_data]

theorem normalize_repo_tag (r t : String) (hc : ':' ∉ t.data) (hs : '/' ∉ t.data) :
    normalizeRef (r ++ ":" ++ t) = r ++ ":" ++ t := by
  rw [normalizeRef, parse_repo_tag r t hc hs]

theorem tempTag_repo_tag (r t : String) (hc : ':' ∉ t.data) (hs : '/' ∉ t.data) :
    getTempImageTag (r ++ ":" ++ t) = r ++ ":" ++ t ++ tempSuffix := by
  rw [getTempImageTag, parse_repo_tag r t hc hs]

theorem suffix_data_ok : ':' ∉ tempSuffix.data ∧ '/' ∉ tempSuffix.data := by decide

theorem parse_temp_tag (r t : String) (hc : ':' ∉ t.data) (hs : '/' ∉ t.data) :
    parseImageNameAndTag (r ++ ":" ++ t ++ tempSuffix) = (r, t ++ tempSuffix) := by
  have h1 : r ++ ":" ++ t ++ tempSuffix = r ++ ":" ++ (t ++ tempSuffix) := by
    rw [string_append_assoc (r ++ ":") t tempSuffix]
  rw [h1]
  apply parse_repo_tag
  · rw [string_data_append]
    intro hmem
    rcases List.mem_append.mp hmem with h | h
    · exact hc h
    · exact suffix_data_ok.1 h
  · rw [string_data_append]
    intro hmem
    rcases List.mem_append.mp hmem with h | h
    · exact hs h
    · exact suffix_data_ok.2 h

theorem append_tempSuffix_ne (t : String) : t ≠ t ++ tempSuffix := by
  intro h
  have hd : t.data = t.data ++ tempSuffix.data := by
    conv_lhs => rw [h]
    rw [string_data_append]
  have hlen := congrArg List.length hd
  simp [tempSuffix] at hlen

theorem prod_key_ne_temp_key (r t : String) :
    r ++ ":" ++ t ≠ r ++ ":" ++ (t ++ tempSuffix) := by
  intro h
  have hd := congrArg String.data h
  rw [string_data_append, string_data_append, string_data_append, string_data_append] at hd
  have ht : t.data = t.data ++ tempSuffix.data := List.append_cancel_left hd
  have hlen := congrArg List.length ht
  simp [tempSuffix] at hlen

@[simp] theorem terminalWrites_append (a b : List Ev) :
    terminalWrites (a ++ b) = terminalWrites a ++ terminalWrites b := by
  simp [terminalWrites]

@[simp] theorem terminalWrites_nil : terminalWrites [] = [] := rfl

@[simp] theorem terminalWrites_single_write (t : TermWrite) :
    terminalWrites [.writeTerminal t] = [t] := rfl

/-- Whether a single event contributes a terminal write. -/
def evWriteCount : Ev → Nat
  | .writeTerminal _ => 1
  | _ => 0

@[simp] theorem terminalWrites_single_length (e : Ev) :
    (terminalWrites [e]).length = evWriteCount e := by
  cases e <;> rfl

/-- The terminal writes contributed by one event. -/
def evW : Ev → List TermWrite
  | .writeTerminal t => [t]
  | _ => []

@[simp] theorem terminalWrites_cons (e : Ev) (l : List Ev) :
    terminalWrites (e :: l) = evW e ++ terminalWrites l := by
  cases e <;> simp [terminalWrites, evW]

/-! ## Lemmas about the log decoder -/

theorem nonBlankLines_no_blank (l : List Nat) :
    ∀ x ∈ nonBlankLines l, jsTrim x ≠ [] := by
  intro x hx
  have h := (List.mem_filter.mp hx).2
  simp only [Bool.not_eq_true'] at h
  simpa [List.isEmpty_iff] using h

theorem stripLoop_no_blank (raw : List Nat) :
    ∀ offset, ∀ l ∈ stripLoop raw offset, jsTrim l ≠ [] := by
  have H : ∀ n offset, raw.length - offset ≤ n →
      ∀ l ∈ stripLoop raw offset, jsTrim l ≠ [] := by
    intro n
    induction n with
    | zero =>
      intro offset h l hl
      rw [stripLoop] at hl
      have h0 : ¬ offset < raw.length := by omega
      simp [h0] at hl
    | succ n ih =>
      intro offset h l hl
      rw [stripLoop] at hl
      dsimp only at hl
      split at hl
      · split at hl
        · split at hl
          · rcases List.mem_append.mp hl with hm | hm
            · exact nonBlankLines_no_blank _ l hm
            · exact ih _ (by omega) l hm
          · exact nonBlankLines_no_blank _ l hl
        · exact nonBlankLines_no_blank _ l hl
      · simp at hl
  intro offset
  exact H (raw.length - offset) offset le_rfl

theorem stripLoop_step (raw : List Nat) (offset : Nat)
    (h0 : offset < raw.length) (h8 : offset + 8 ≤ raw.length)
    (hst : raw.getD offset 0 ≤ 2)
    (hpos : 0 < dockerFrameSize (raw.getD (offset + 4) 0) (raw.getD (offset + 5) 0)
      (raw.getD (offset + 6) 0) (raw.getD (offset + 7) 0))
    (hfit : offset + 8 + (dockerFrameSize (raw.getD (offset + 4) 0) (raw.getD (offset + 5) 0)
      (raw.getD (offset + 6) 0) (raw.getD (offset + 7) 0)).toNat ≤ raw.length) :
    stripLoop raw offset =
      nonBlankLines ((raw.drop (offset + 8)).take (dockerFrameSize (raw.getD (offset + 4) 0)
          (raw.getD (offset + 5) 0) (raw.getD (offset + 6) 0) (raw.getD (offset + 7) 0)).toNat) ++
        stripLoop raw (offset + 8 + (dockerFrameSize (raw.getD (offset + 4) 0)
          (raw.getD (offset + 5) 0) (raw.getD (offset + 6) 0)
          (raw.getD (offset + 7) 0)).toNat) := by
  rw [stripLoop]
  rw [dif_pos h0, dif_pos ⟨h8, hst⟩, dif_pos ⟨hpos, hfit⟩]

/-! ## Claim theorems -/

/-- C7: the vulnerability gate is a pure function of its inputs: any two
invocations of `shouldBlockUpdate` with identical criterion, new-image
summary, and current-image summary yield identical decisions and
reasons. -/
theorem C7_gate_is_pure (c1 c2 : Criterion) (s1 s2 : VulnSummary)
    (cur1 cur2 : Option VulnSummary) (hc : c1 = c2) (hs : s1 = s2)
    (hcur : cur1 = cur2) :
    shouldBlockUpdate c1 s1 cur1 = shouldBlockUpdate c2 s2 cur2 := by
  rw [hc, hs, hcur]

theorem C7_gate_is_pure_witness :
    shouldBlockUpdate .anyKnown ⟨1, 0, 0, 0, 0, 0⟩ none =
      shouldBlockUpdate .anyKnown ⟨1, 0, 0, 0, 0, 0⟩ none ∧
    (shouldBlockUpdate .anyKnown ⟨1, 0, 0, 0, 0, 0⟩ none).blocked = true :=
  ⟨C7_gate_is_pure _ _ _ _ _ _ rfl rfl rfl, by decide⟩

/-- C10: `stripDockerLogHeaders` is total (it is a terminating function of
the input bytes): every loop iteration that sees a well-formed frame header
with positive in-bounds size consumes exactly that frame, advancing by
8 + size, and every other iteration decodes the remaining bytes as plain
text and stops; all produced lines trim to nonempty text. -/
theorem C10_stripDockerLogHeaders_total_and_structured :
    (∀ raw, ∀ l ∈ stripDockerLogHeaders raw, jsTrim l ≠ []) ∧
    (∀ raw offset, offset < raw.length → offset + 8 ≤ raw.length →
      raw.getD offset 0 ≤ 2 →
      0 < dockerFrameSize (raw.getD (offset + 4) 0) (raw.getD (offset + 5) 0)
        (raw.getD (offset + 6) 0) (raw.getD (offset + 7) 0) →
      offset + 8 + (dockerFrameSize (raw.getD (offset + 4) 0) (raw.getD (offset + 5) 0)
        (raw.getD (offset + 6) 0) (raw.getD (offset + 7) 0)).toNat ≤ raw.length →
      stripLoop raw offset =
        nonBlankLines ((raw.drop (offset + 8)).take (dockerFrameSize (raw.getD (offset + 4) 0)
            (raw.getD (offset + 5) 0) (raw.getD (offset + 6) 0)
            (raw.getD (offset + 7) 0)).toNat) ++
          stripLoop raw (offset + 8 + (dockerFrameSize (raw.getD (offset + 4) 0)
            (raw.getD (offset + 5) 0) (raw.getD (offset + 6) 0)
            (raw.getD (offset + 7) 0)).toNat)) :=
  ⟨fun raw => stripLoop_no_blank raw 0, stripLoop_step⟩

theorem C10_stripDockerLogHeaders_witness :
    jsTrim [200] ≠ [] ∧
    stripLoop [1, 0, 0, 0, 0, 0, 0, 2, 104, 105] 0 =
      nonBlankLines [104, 105] ++ stripLoop [1, 0, 0, 0, 0, 0, 0, 2, 104, 105] 10 := by
  constructor
  · exact C10_stripDockerLogHeaders_total_and_structured.1 [200] [200]
      (by rw [stripDockerLogHeaders, stripLoop]; decide)
  · have h := C10_stripDockerLogHeaders_total_and_structured.2
      [1, 0, 0, 0, 0, 0, 0, 2, 104, 105] 0 (by norm_num) (by norm_num)
      (by norm_num) (by decide) (by decide)
    simpa using h

/-! ## Concrete fixtures used by witnesses -/

/-- A fully cooperative environment: every external call succeeds. -/
def baseEnv : Env :=
  { listContainersCall := .ok ()
    inspectCall := .ok ()
    scannerName := "trivy"
    criteria := .anyKnown
    registryCheckCall := .ok ⟨true, some "sha256:bbb", false, none⟩
    pullSafe := .ok ()
    pulledImageId := "sha256:bbb"
    getImageIdCall := .ok ()
    tagRestore := .ok ()
    tagTemp := .ok ()
    scanNew := .ok [⟨"trivy", "app:1.0-dockhand-scan", "t0", ⟨1, 0, 0, 0, 0, 0⟩⟩]
    cachedScan := .ok none
    scanCurrent := .ok []
    removeTempBlock := .ok ()
    removeTempScanFail := .ok ()
    tagPromote := .ok ()
    removeTempCleanup := .ok ()
    pullPlain := .ok ()
    stackCompose := .ok none
    stackUp := .ok ⟨true, none, none⟩
    rListCall := .ok ()
    rInspectCall := .ok ()
    rStop := .ok ()
    rRemove := .ok ()
    rCreate := .ok "cid-new"
    rConnect := fun _ => .ok ()
    rStart := .ok () }

/-- A standalone running container using a tagged image. -/
def webC : ContainerC :=
  ⟨"cid-1", "web-1", "sha256:aaa", some "app:1.0", true, [], "bridge", []⟩

/-- A container whose configured image reference is digest-pinned. -/
def pinnedC : ContainerC :=
  ⟨"cid-2", "web-2", "sha256:ccc", some "app@sha256:ccc", true, [], "bridge", []⟩

def s0web : EngineState :=
  ⟨fun k => if k = "app:1.0" then some "sha256:aaa" else none,
   fun i => i = "sha256:aaa", [webC]⟩

def s0pinned : EngineState := ⟨fun _ => none, fun _ => false, [pinnedC]⟩

/-- C4: for every container whose configured image reference is
digest-pinned, the run ends skipped with the pinned-to-digest reason,
without any registry call and without any pull, and the engine state is
untouched. -/
theorem C4_digest_pinned_skips (env : Env) (cn : String) (s0 : EngineState)
    (c : ContainerC) (im : String)
    (hl : env.listContainersCall = .ok ())
    (hi : env.inspectCall = .ok ())
    (hfind : s0.containers.find? (fun x => x.name == cn) = some c)
    (him : c.configImage = some im)
    (hsys : isSystemContainer im = none)
    (hdig : isDigestBasedImage im = true) :
    terminalWrites (runContainerUpdate env cn s0).trace =
      [⟨.skipped, some "Image pinned to specific digest", none, none⟩] ∧
    Ev.registryCheck ∉ (runContainerUpdate env cn s0).trace ∧
    Ev.pull ∉ (runContainerUpdate env cn s0).trace ∧
    (runContainerUpdate env cn s0).engine = s0 := by
  have hrun : runContainerUpdate env cn s0 =
      ⟨s0, [.listContainersEv, .inspectEv,
        .writeTerminal ⟨.skipped, some "Image pinned to specific digest", none, none⟩]⟩ := by
    simp [runContainerUpdate, hl, hi, hfind, him, hsys, hdig, emit]
  rw [hrun]
  simp [terminalWrites]

theorem C4_digest_pinned_skips_witness :
    terminalWrites (runContainerUpdate baseEnv "web-2" s0pinned).trace =
      [⟨.skipped, some "Image pinned to specific digest", none, none⟩] ∧
    Ev.registryCheck ∉ (runContainerUpdate baseEnv "web-2" s0pinned).trace ∧
    Ev.pull ∉ (runContainerUpdate baseEnv "web-2" s0pinned).trace ∧
    (runContainerUpdate baseEnv "web-2" s0pinned).engine = s0pinned :=
  C4_digest_pinned_skips baseEnv "web-2" s0pinned pinnedC "app@sha256:ccc"
    rfl rfl (by decide) rfl (by decide) (by decide)

/-- C5: whenever the registry check reports an error, classifies the image
as local-only, or reports no update, the run ends skipped (never failed),
and no pull, no tag operation and no container recreation step occurs; the
engine state is untouched. -/
theorem C5_registry_nonupdate_skips (env : Env) (cn : String) (s0 : EngineState)
    (c : ContainerC) (im : String) (rc : RegistryCheckResult)
    (hl : env.listContainersCall = .ok ())
    (hi : env.inspectCall = .ok ())
    (hfind : s0.containers.find? (fun x => x.name == cn) = some c)
    (him : c.configImage = some im)
    (hsys : isSystemContainer im = none)
    (hdig : isDigestBasedImage im = false)
    (hrc : env.registryCheckCall = .ok rc)
    (hskip : rc.isLocalImage = true ∨ rc.error ≠ none ∨ rc.hasUpdate = false) :
    (∃ reason, terminalWrites (runContainerUpdate env cn s0).trace =
      [⟨.skipped, some reason, none, none⟩]) ∧
    Ev.pull ∉ (runContainerUpdate env cn s0).trace ∧
    (∀ i r t, Ev.tagOp i r t ∉ (runContainerUpdate env cn s0).trace) ∧
    Ev.stopEv ∉ (runContainerUpdate env cn s0).trace ∧
    Ev.removeEv ∉ (runContainerUpdate env cn s0).trace ∧
    Ev.createEv ∉ (runContainerUpdate env cn s0).trace ∧
    Ev.startEv ∉ (runContainerUpdate env cn s0).trace ∧
    (runContainerUpdate env cn s0).engine = s0 := by
  by_cases hloc : rc.isLocalImage = true
  · have hrun : runContainerUpdate env cn s0 =
        ⟨s0, [.listContainersEv, .inspectEv, .registryCheck,
          .writeTerminal ⟨.skipped, some "Local image - no registry available", none, none⟩]⟩ := by
      simp [runContainerUpdate, hl, hi, hfind, him, hsys, hdig, hrc, hloc, emit]
    rw [hrun]
    exact ⟨⟨"Local image - no registry available", by simp [terminalWrites]⟩,
      by simp, by simp, by simp, by simp, by simp, by simp, rfl⟩
  · rcases herr : rc.error with _ | err
    · have hupd : rc.hasUpdate = false := by
        rcases hskip with h | h | h
        · exact absurd h hloc
        · exact absurd herr h
        · exact h
      have hrun : runContainerUpdate env cn s0 =
          ⟨s0, [.listContainersEv, .inspectEv, .registryCheck,
            .writeTerminal ⟨.skipped, some "Already up-to-date", none, none⟩]⟩ := by
        simp [runContainerUpdate, hl, hi, hfind, him, hsys, hdig, hrc, hloc, herr, hupd, emit]
      rw [hrun]
      exact ⟨⟨"Already up-to-date", by simp [terminalWrites]⟩,
        by simp, by simp, by simp, by simp, by simp, by simp, rfl⟩
    · have hrun : runContainerUpdate env cn s0 =
          ⟨s0, [.listContainersEv, .inspectEv, .registryCheck,
            .writeTerminal ⟨.skipped, some ("Registry check failed: " ++ err), none, none⟩]⟩ := by
        simp [runContainerUpdate, hl, hi, hfind, him, hsys, hdig, hrc, hloc, herr, emit]
      rw [hrun]
      exact ⟨⟨"Registry check failed: " ++ err, by simp [terminalWrites]⟩,
        by simp, by simp, by simp, by simp, by simp, by simp, rfl⟩

theorem C5_registry_nonupdate_skips_witness :
    (∃ reason, terminalWrites (runContainerUpdate
        { baseEnv with registryCheckCall := .ok ⟨false, none, true, none⟩ } "web-1" s0web).trace =
      [⟨.skipped, some reason, none, none⟩]) ∧
    Ev.pull ∉ (runContainerUpdate
        { baseEnv with registryCheckCall := .ok ⟨false, none, true, none⟩ } "web-1" s0web).trace ∧
    (∀ i r t, Ev.tagOp i r t ∉ (runContainerUpdate
        { baseEnv with registryCheckCall := .ok ⟨false, none, true, none⟩ } "web-1" s0web).trace) ∧
    Ev.stopEv ∉ (runContainerUpdate
        { baseEnv with registryCheckCall := .ok ⟨false, none, true, none⟩ } "web-1" s0web).trace ∧
    Ev.removeEv ∉ (runContainerUpdate
        { baseEnv with registryCheckCall := .ok ⟨false, none, true, none⟩ } "web-1" s0web).trace ∧
    Ev.createEv ∉ (runContainerUpdate
        { baseEnv with registryCheckCall := .ok ⟨false, none, true, none⟩ } "web-1" s0web).trace ∧
    Ev.startEv ∉ (runContainerUpdate
        { baseEnv with registryCheckCall := .ok ⟨false, none, true, none⟩ } "web-1" s0web).trace ∧
    (runContainerUpdate
        { baseEnv with registryCheckCall := .ok ⟨false, none, true, none⟩ } "web-1" s0web).engine
      = s0web :=
  C5_registry_nonupdate_skips _ "web-1" s0web webC "app:1.0" ⟨false, none, true, none⟩
    rfl rfl (by decide) rfl (by decide) (by decide) rfl (Or.inl rfl)

/-- C1: evaluation of the Safe-Pull flow at a failing input.  The pull
succeeds (re-pointing the production tag at the new image), then the
image-id lookup throws; the `pullError` handler (container-update.ts lines
440-448) marks the execution failed without restoring the production tag
and without removing the pulled image, so after a run that ended failed
before promotion the production tag resolves to the new image id, not the
pre-run one. -/
theorem C1_tag_not_restored_on_failure :
    terminalWrites (runContainerUpdate
        { baseEnv with getImageIdCall := .error "connection reset" } "web-1" s0web).trace =
      [⟨.failed, none, none, some "Failed to pull image: connection reset"⟩] ∧
    s0web.tags "app:1.0" = some "sha256:aaa" ∧
    (runContainerUpdate { baseEnv with getImageIdCall := .error "connection reset" }
        "web-1" s0web).engine.tags "app:1.0" = some "sha256:bbb" ∧
    (runContainerUpdate { baseEnv with getImageIdCall := .error "connection reset" }
        "web-1" s0web).engine.images "sha256:bbb" = true := by
  refine ⟨?_, rfl, ?_, ?_⟩ <;> decide

/-! ## The blocked safe-pull run (claim C2) -/

@[simp] theorem emitCurrentScanEvent_engine (env : Env) (w : World) :
    (emitCurrentScanEvent env w).engine = w.engine := by
  unfold emitCurrentScanEvent
  split
  · split <;> rfl
  · rfl

@[simp] theorem terminalWrites_emitCurrentScanEvent (env : Env) (w : World) :
    terminalWrites (emitCurrentScanEvent env w).trace = terminalWrites w.trace := by
  unfold emitCurrentScanEvent
  split
  · split <;> simp [terminalWrites]
  · rfl

/-- In a run whose vulnerability gate blocks and whose engine calls up to
the block succeed, the safe-pull phase ends terminally with a single
skipped write carrying the block reason; the production tag is restored
to the current image, the temp tag and the pulled image are gone, and the
containers are untouched. -/
theorem safePull_blocked_spec (env : Env) (r t currId newId : String)
    (rs : List ScanResult) (w : World)
    (hscan : env.scannerName ≠ "none")
    (hdig : isDigestBasedImage (r ++ ":" ++ t) = false)
    (hct : ':' ∉ t.data) (hst : '/' ∉ t.data)
    (hpull : env.pullSafe = .ok ()) (hpid : env.pulledImageId = newId)
    (hgid : env.getImageIdCall = .ok ())
    (hres : env.tagRestore = .ok ()) (htmp : env.tagTemp = .ok ())
    (hsnew : env.scanNew = .ok rs) (hrs : rs ≠ [])
    (hblock : (shouldBlockUpdate env.criteria (combineScanSummaries rs)
      (currentSummaryOf env)).blocked = true)
    (hrmb : env.removeTempBlock = .ok ())
    (hwn1 : normalizeRef newId ≠ r ++ ":" ++ t)
    (hwn2 : normalizeRef newId ≠ r ++ ":" ++ (t ++ tempSuffix))
    (hwn3 : w.engine.tags (normalizeRef newId) = none)
    (hne : newId ≠ currId) :
    ∃ w', safePullPhase env (r ++ ":" ++ t) currId w = .terminal w' ∧
      terminalWrites w'.trace = terminalWrites w.trace ++
        [⟨.skipped, some "vulnerabilities_found",
          some (shouldBlockUpdate env.criteria (combineScanSummaries rs)
            (currentSummaryOf env)).reason, none⟩] ∧
      w'.engine.tags (r ++ ":" ++ t) = some currId ∧
      w'.engine.tags (r ++ ":" ++ (t ++ tempSuffix)) = none ∧
      w'.engine.images newId = false ∧
      w'.engine.containers = w.engine.containers := by
  have e1 : getTempImageTag (r ++ ":" ++ t) = r ++ ":" ++ t ++ tempSuffix :=
    tempTag_repo_tag r t hct hst
  have e2 : normalizeRef (r ++ ":" ++ t) = r ++ ":" ++ t := normalize_repo_tag r t hct hst
  have e3 : parseImageNameAndTag (r ++ ":" ++ t) = (r, t) := parse_repo_tag r t hct hst
  have e4 : parseImageNameAndTag (r ++ ":" ++ t ++ tempSuffix) = (r, t ++ tempSuffix) :=
    parse_temp_tag r t hct hst
  have hlen : 0 < rs.length := List.length_pos.mpr hrs
  have k1 : r ++ ":" ++ t ≠ r ++ ":" ++ (t ++ tempSuffix) := prod_key_ne_temp_key r t
  have k1f : (r ++ ":" ++ t = r ++ ":" ++ (t ++ tempSuffix)) = False := eq_false k1
  have hn1 : (normalizeRef newId = r ++ ":" ++ t) = False := eq_false hwn1
  have hn2 : (normalizeRef newId = r ++ ":" ++ (t ++ tempSuffix)) = False := eq_false hwn2
  have hne2 : currId ≠ newId := fun h => hne h.symm
  simp only [safePullPhase, e1, e2, e3, e4, hscan, ne_eq, not_false_iff, if_true,
    hdig, Bool.false_eq_true, if_false, hpull, hpid, hgid, hres, htmp, hsnew, hrmb,
    hlen, if_pos, hblock, applyPull, setTag, removeTempImageApply, emit_engine,
    emitCurrentScanEvent_engine, hn1, hn2, hwn3, k1f]
  refine ⟨_, rfl, ?_, ?_, ?_, ?_⟩
  · simp only [emit_trace, terminalWrites_append, terminalWrites_emitCurrentScanEvent]
    simp [terminalWrites]
  · simp [k1f, hne2]
  · simp
  · simp

/-- C2 (amended): whenever the vulnerability gate blocks an update and
the temp-image removal of the blocked branch succeeds, the temp-tagged
pulled image is removed, the execution ends with a single skipped write
whose details carry a populated blockReason, and both the running
container and the production tag are unchanged.  (When that removal
throws instead, the scan-error handler ends the execution failed: see the
counterexample below.) -/
theorem C2_blocked_update_is_safe (env : Env) (cn : String) (s0 : EngineState)
    (c : ContainerC) (r t currId newId : String) (rc : RegistryCheckResult)
    (rs : List ScanResult)
    (hl : env.listContainersCall = .ok ())
    (hi : env.inspectCall = .ok ())
    (hfind : s0.containers.find? (fun x => x.name == cn) = some c)
    (him : c.configImage = some (r ++ ":" ++ t))
    (hcur : c.image = currId)
    (hsys : isSystemContainer (r ++ ":" ++ t) = none)
    (hdig : isDigestBasedImage (r ++ ":" ++ t) = false)
    (hct : ':' ∉ t.data) (hst : '/' ∉ t.data)
    (hrc : env.registryCheckCall = .ok rc) (hloc : rc.isLocalImage = false)
    (herr : rc.error = none) (hupd : rc.hasUpdate = true)
    (hscan : env.scannerName ≠ "none")
    (hpull : env.pullSafe = .ok ()) (hpid : env.pulledImageId = newId)
    (hgid : env.getImageIdCall = .ok ())
    (hres : env.tagRestore = .ok ()) (htmp : env.tagTemp = .ok ())
    (hsnew : env.scanNew = .ok rs) (hrs : rs ≠ [])
    (hblock : (shouldBlockUpdate env.criteria (combineScanSummaries rs)
      (currentSummaryOf env)).blocked = true)
    (hrmb : env.removeTempBlock = .ok ())
    (hs0tag : s0.tags (r ++ ":" ++ t) = some currId)
    (hwn1 : normalizeRef newId ≠ r ++ ":" ++ t)
    (hwn2 : normalizeRef newId ≠ r ++ ":" ++ (t ++ tempSuffix))
    (hwn3 : s0.tags (normalizeRef newId) = none)
    (hne : newId ≠ currId) :
    terminalWrites (runContainerUpdate env cn s0).trace =
      [⟨.skipped, some "vulnerabilities_found",
        some (shouldBlockUpdate env.criteria (combineScanSummaries rs)
          (currentSummaryOf env)).reason, none⟩] ∧
    (runContainerUpdate env cn s0).engine.tags (r ++ ":" ++ t) = s0.tags (r ++ ":" ++ t) ∧
    (runContainerUpdate env cn s0).engine.tags (r ++ ":" ++ (t ++ tempSuffix)) = none ∧
    (runContainerUpdate env cn s0).engine.images newId = false ∧
    (runContainerUpdate env cn s0).engine.containers = s0.containers := by
  obtain ⟨w', heq, hterm, hprod, htemp, himg, hcont⟩ :=
    safePull_blocked_spec env r t currId newId rs
      ⟨s0, [.listContainersEv, .inspectEv, .registryCheck]⟩ hscan hdig hct hst
      hpull hpid hgid hres htmp hsnew hrs hblock hrmb hwn1 hwn2 hwn3 hne
  have hrun : runContainerUpdate env cn s0 = w' := by
    simp only [runContainerUpdate, hl, hfind, hi, him, hsys, hdig, Bool.false_eq_true,
      if_false, hcur, hrc, hloc, herr, hupd, emit, List.nil_append, List.cons_append,
      List.append_nil, if_true]
    rw [heq]
  rw [hrun]
  refine ⟨?_, ?_, htemp, himg, by simpa using hcont⟩
  · rw [hterm]
    simp [terminalWrites]
  · rw [hprod, hs0tag]

theorem C2_blocked_update_is_safe_witness :
    terminalWrites (runContainerUpdate baseEnv "web-1" s0web).trace =
      [⟨.skipped, some "vulnerabilities_found",
        some (shouldBlockUpdate baseEnv.criteria
          (combineScanSummaries [⟨"trivy", "app:1.0-dockhand-scan", "t0", ⟨1, 0, 0, 0, 0, 0⟩⟩])
          (currentSummaryOf baseEnv)).reason, none⟩] ∧
    (runContainerUpdate baseEnv "web-1" s0web).engine.tags "app:1.0" =
      s0web.tags "app:1.0" ∧
    (runContainerUpdate baseEnv "web-1" s0web).engine.tags ("app" ++ ":" ++ ("1.0" ++ tempSuffix)) = none ∧
    (runContainerUpdate baseEnv "web-1" s0web).engine.images "sha256:bbb" = false ∧
    (runContainerUpdate baseEnv "web-1" s0web).engine.containers = s0web.containers := by
  exact C2_blocked_update_is_safe baseEnv "web-1" s0web webC "app" "1.0"
    "sha256:aaa" "sha256:bbb" ⟨true, some "sha256:bbb", false, none⟩
    [⟨"trivy", "app:1.0-dockhand-scan", "t0", ⟨1, 0, 0, 0, 0, 0⟩⟩]
    rfl rfl (by decide) (by decide) rfl (by decide) (by decide) (by decide) (by decide)
    rfl rfl rfl rfl (by decide) rfl rfl rfl rfl rfl rfl (by decide) (by decide) rfl
    (by decide) (by decide) (by decide) (by decide) (by decide)

/-- The gate blocks, but the temp-image removal of the blocked branch
throws. -/
def envBlockedRemoveFail : Env :=
  { baseEnv with removeTempBlock := .error "io error" }

/-- C2 counterexample: a run whose vulnerability gate blocks the update
but whose temp-image removal throws.  The throw escapes to the
scan-error handler (container-update.ts lines 415-428), so the execution
ends with a single failed write and no blockReason — refuting the
unconditional claim that a gate-blocked update always ends skipped with
a populated blockReason. -/
theorem C2_counterexample_blocked_removal_throws :
    (shouldBlockUpdate envBlockedRemoveFail.criteria
      (combineScanSummaries [⟨"trivy", "app:1.0-dockhand-scan", "t0", ⟨1, 0, 0, 0, 0, 0⟩⟩])
      (currentSummaryOf envBlockedRemoveFail)).blocked = true ∧
    envBlockedRemoveFail.scanNew =
      .ok [⟨"trivy", "app:1.0-dockhand-scan", "t0", ⟨1, 0, 0, 0, 0, 0⟩⟩] ∧
    terminalWrites (runContainerUpdate envBlockedRemoveFail "web-1" s0web).trace =
      [⟨.failed, none, none, some "Vulnerability scan failed: io error"⟩] := by
  refine ⟨?_, rfl, ?_⟩ <;> decide

/-! ## Trace growth of the recreation helpers -/

/-- The events appended by `connectLoop`, as a pure function of the
environment and the network list. -/
def connectDelta (env : Env) : List NetworkInfo → List Ev
  | [] => []
  | n :: rest =>
    (match env.rConnect n.name with
     | .error _ => [.connectEv n.name, .warnNetworkConnectFailed n.name]
     | .ok _ => [.connectEv n.name]) ++ connectDelta env rest

@[simp] theorem connectLoop_engine (env : Env) (nets : List NetworkInfo) (w : World) :
    (connectLoop env nets w).engine = w.engine := by
  induction nets generalizing w with
  | nil => rfl
  | cons n rest ih =>
    simp only [connectLoop]
    cases env.rConnect n.name <;> simp [ih]

@[simp] theorem connectLoop_trace (env : Env) (nets : List NetworkInfo) (w : World) :
    (connectLoop env nets w).trace = w.trace ++ connectDelta env nets := by
  induction nets generalizing w with
  | nil => simp [connectLoop, connectDelta]
  | cons n rest ih =>
    simp only [connectLoop, connectDelta]
    cases env.rConnect n.name <;> simp [ih]

theorem connectDelta_mem (env : Env) (nets : List NetworkInfo) :
    ∀ e ∈ connectDelta env nets,
      ∃ n, e = Ev.connectEv n ∨ e = Ev.warnNetworkConnectFailed n := by
  induction nets with
  | nil => intro e he; simp [connectDelta] at he
  | cons n rest ih =>
    intro e he
    simp only [connectDelta] at he
    rcases List.mem_append.mp he with h | h
    · cases hc : env.rConnect n.name <;> rw [hc] at h <;> simp at h
      · rcases h with h | h
        · exact ⟨n.name, Or.inl h⟩
        · exact ⟨n.name, Or.inr h⟩
      · exact ⟨n.name, Or.inl h⟩
    · exact ih e h

theorem connectDelta_attempts (env : Env) (nets : List NetworkInfo) :
    ∀ n ∈ nets, Ev.connectEv n.name ∈ connectDelta env nets := by
  induction nets with
  | nil => intro n hn; simp at hn
  | cons m rest ih =>
    intro n hn
    simp only [connectDelta, List.mem_append]
    rcases List.mem_cons.mp hn with h | h
    · subst h
      left
      cases env.rConnect n.name <;> simp
    · exact Or.inr (ih n h)

theorem connectDelta_warns (env : Env) (nets : List NetworkInfo) :
    ∀ n ∈ nets, ∀ e, env.rConnect n.name = .error e →
      Ev.warnNetworkConnectFailed n.name ∈ connectDelta env nets := by
  induction nets with
  | nil => intro n hn; simp at hn
  | cons m rest ih =>
    intro n hn e he
    simp only [connectDelta, List.mem_append]
    rcases List.mem_cons.mp hn with h | h
    · subst h
      left
      rw [he]
      simp
    · exact Or.inr (ih n h e he)

theorem stopEv_not_in_connectDelta (env : Env) (nets : List NetworkInfo) :
    Ev.stopEv ∉ connectDelta env nets := by
  intro h
  obtain ⟨n, h | h⟩ := connectDelta_mem env nets _ h <;> simp at h

theorem startEv_not_in_connectDelta (env : Env) (nets : List NetworkInfo) :
    Ev.startEv ∉ connectDelta env nets := by
  intro h
  obtain ⟨n, h | h⟩ := connectDelta_mem env nets _ h <;> simp at h

/-- C8: during `recreateContainer`, a failure to reconnect any one
secondary network does not abort the operation: every secondary network is
still attempted, a failed connect is logged as a per-network warning, the
Starting step still executes, and the function still returns true. -/
theorem C8_network_reconnect_failures_nonfatal (env : Env) (cn : String)
    (s : EngineState) (c : ContainerC) (newId : String)
    (hlist : env.rListCall = .ok ())
    (hfind : s.containers.find? (fun x => x.name == cn) = some c)
    (hins : env.rInspectCall = .ok ())
    (hrun : c.running = true)
    (hstop : env.rStop = .ok ())
    (hrem : env.rRemove = .ok ())
    (hcre : env.rCreate = .ok newId)
    (hsta : env.rStart = .ok ()) :
    (recreateContainer env cn ⟨s, []⟩).1 = true ∧
    (∀ n ∈ computeAdditionalNetworks c,
      Ev.connectEv n.name ∈ (recreateContainer env cn ⟨s, []⟩).2.trace) ∧
    (∀ n ∈ computeAdditionalNetworks c, ∀ e, env.rConnect n.name = .error e →
      Ev.warnNetworkConnectFailed n.name ∈ (recreateContainer env cn ⟨s, []⟩).2.trace) ∧
    Ev.startEv ∈ (recreateContainer env cn ⟨s, []⟩).2.trace := by
  refine ⟨?_, ?_, ?_, ?_⟩ <;>
    simp only [recreateContainer, recreateAfterStop, hlist, hfind, hins, hrun, hstop,
      hrem, hcre, hsta, emit, emit_engine, emit_trace, connectLoop_trace,
      connectLoop_engine, if_true, List.nil_append]
  · intro n hn
    have hmem := connectDelta_attempts env (computeAdditionalNetworks c) n hn
    simp [List.mem_append, hmem]
  · intro n hn e he
    have hmem := connectDelta_warns env (computeAdditionalNetworks c) n hn e he
    simp [List.mem_append, hmem]
  · simp

/-- C9: `recreateContainer` stops the old container and starts the
replacement exactly when the inspected container was running; a stopped
container is recreated without any stop or start step and its replacement
is left present but not running. -/
theorem C9_start_iff_was_running (env : Env) (cn : String)
    (s : EngineState) (c : ContainerC) (newId : String)
    (hlist : env.rListCall = .ok ())
    (hfind : s.containers.find? (fun x => x.name == cn) = some c)
    (hins : env.rInspectCall = .ok ())
    (hstop : env.rStop = .ok ())
    (hrem : env.rRemove = .ok ())
    (hcre : env.rCreate = .ok newId)
    (hsta : env.rStart = .ok ()) :
    (recreateContainer env cn ⟨s, []⟩).1 = true ∧
    ((Ev.stopEv ∈ (recreateContainer env cn ⟨s, []⟩).2.trace) ↔ c.running = true) ∧
    ((Ev.startEv ∈ (recreateContainer env cn ⟨s, []⟩).2.trace) ↔ c.running = true) ∧
    (c.running = false →
      ∃ cN ∈ (recreateContainer env cn ⟨s, []⟩).2.engine.containers,
        cN.id = newId ∧ cN.running = false ∧ cN.name = c.name) := by
  by_cases hr : c.running = true
  · refine ⟨?_, ?_, ?_, ?_⟩ <;>
      simp only [recreateContainer, recreateAfterStop, hlist, hfind, hins, hr, hstop,
        hrem, hcre, hsta, emit, emit_engine, emit_trace, connectLoop_trace,
        connectLoop_engine, if_true, List.nil_append]
    · simp
    · simp
    · intro hf
      exact absurd hf (by simp)
  · have hr' : c.running = false := by
      cases hcr : c.running
      · rfl
      · exact absurd hcr hr
    refine ⟨?_, ?_, ?_, ?_⟩ <;>
      simp only [recreateContainer, recreateAfterStop, hlist, hfind, hins, hr', hstop,
        hrem, hcre, hsta, emit, emit_engine, emit_trace, connectLoop_trace,
        connectLoop_engine, Bool.false_eq_true, if_false, List.nil_append]
    · simp only [List.mem_append, iff_false]
      intro h
      rcases h with h | h
      · simp at h
      · exact absurd h (stopEv_not_in_connectDelta env _)
    · simp only [List.mem_append, iff_false]
      intro h
      rcases h with h | h
      · simp at h
      · exact absurd h (startEv_not_in_connectDelta env _)
    · intro _
      simp only [addContainer]
      refine ⟨_, List.mem_append_right _ (List.mem_singleton.mpr rfl), rfl, rfl, rfl⟩

/-! ## Counting terminal ledger writes (claim C6) -/

/-- Number of terminal ledger writes in a world trace. -/
def wlen (w : World) : Nat := (terminalWrites w.trace).length

@[simp] theorem wlen_mk (s : EngineState) (tr : List Ev) :
    wlen ⟨s, tr⟩ = (terminalWrites tr).length := rfl

@[simp] theorem wlen_emit (w : World) (e : Ev) :
    wlen (emit w e) = wlen w + evWriteCount e := by
  cases e <;> simp [wlen, emit, terminalWrites, evWriteCount]

theorem terminalWrites_connectDelta (env : Env) (nets : List NetworkInfo) :
    terminalWrites (connectDelta env nets) = [] := by
  induction nets with
  | nil => rfl
  | cons n rest ih =>
    simp only [connectDelta, terminalWrites_append, ih]
    cases env.rConnect n.name <;> simp [terminalWrites]

@[simp] theorem connectLoop_wlen (env : Env) (nets : List NetworkInfo) (w : World) :
    wlen (connectLoop env nets w) = wlen w := by
  simp [wlen, connectLoop_trace, terminalWrites_append, terminalWrites_connectDelta]

theorem updateStackContainer_wlen (env : Env) (w : World) :
    wlen (updateStackContainer env w).2 = wlen w := by
  unfold updateStackContainer
  cases env.stackCompose with
  | error e => simp [evWriteCount, wlen, evW]
  | ok oc =>
    cases oc with
    | none => simp [evWriteCount, wlen, evW]
    | some f =>
      cases env.stackUp <;> simp [evWriteCount, wlen, evW]

theorem recreateAfterStop_wlen (env : Env) (c : ContainerC) (b : Bool) (w : World) :
    wlen (recreateAfterStop env c b w).2 = wlen w := by
  unfold recreateAfterStop
  cases env.rRemove with
  | error e => simp [evWriteCount, wlen, evW, terminalWrites_connectDelta]
  | ok u =>
    cases env.rCreate with
    | error e => simp [evWriteCount, wlen, evW, terminalWrites_connectDelta]
    | ok newId =>
      by_cases hb : b = true
      · rw [hb]
        cases env.rStart <;>
          simp [evWriteCount, wlen, evW, terminalWrites_connectDelta]
      · have hb' : b = false := by
          cases b
          · rfl
          · exact absurd rfl hb
        rw [hb']
        simp [evWriteCount, wlen, evW, terminalWrites_connectDelta]

theorem recreateContainer_wlen (env : Env) (cn : String) (w : World) :
    wlen (recreateContainer env cn w).2 = wlen w := by
  unfold recreateContainer
  simp only [emit_engine]
  cases env.rListCall with
  | error e => simp [evWriteCount, wlen, evW]
  | ok u =>
    cases hfind : w.engine.containers.find? (fun c => c.name == cn) with
    | none => simp [hfind, evWriteCount, wlen, evW]
    | some c =>
      simp only [hfind]
      cases env.rInspectCall with
      | error e => simp [evWriteCount, wlen, evW]
      | ok u2 =>
        by_cases hr : c.running = true
        · simp only [hr, if_true]
          cases env.rStop with
          | error e => simp [evWriteCount, wlen, evW]
          | ok u3 =>
            rw [recreateAfterStop_wlen]
            simp [evWriteCount, wlen, evW]
        · have hr2 : c.running = false := by
            cases hc : c.running
            · rfl
            · exact absurd hc hr
          simp only [hr2, Bool.false_eq_true, if_false]
          rw [recreateAfterStop_wlen]
          simp [evWriteCount, wlen, evW]

/-- The terminal-write budget of a safe-pull outcome relative to the
incoming world: a terminal outcome performed exactly one terminal write,
a proceeding outcome performed none. -/
def spOk (w : World) : SafePullOut → Prop
  | .terminal w2 => wlen w2 = wlen w + 1
  | .proceed w2 => wlen w2 = wlen w

theorem pullCatch_spOk (w w2 : World) (e : String) (h : wlen w2 = wlen w) :
    spOk w (pullCatch w2 e) := by
  simp [pullCatch, spOk, evWriteCount, h]

theorem scanCatch_spOk (env : Env) (w w2 : World) (nid e : String)
    (h : wlen w2 = wlen w) : spOk w (scanCatch env w2 nid e) := by
  unfold scanCatch
  cases env.removeTempScanFail with
  | error e2 =>
    apply pullCatch_spOk
    simp [evWriteCount, h]
  | ok u => simpa [spOk, evWriteCount, wlen, evW] using h

theorem approvedRetag_spOk (env : Env) (w w2 : World) (im nid tmp : String)
    (h : wlen w2 = wlen w) : spOk w (approvedRetag env w2 im nid tmp) := by
  unfold approvedRetag
  cases env.tagPromote with
  | error e =>
    apply pullCatch_spOk
    simp [evWriteCount, h]
  | ok u =>
    cases env.removeTempCleanup with
    | error e => simpa [spOk, evWriteCount, wlen, evW] using h
    | ok u2 => simpa [spOk, evWriteCount, wlen, evW] using h

theorem safePullPhase_spOk (env : Env) (im cid : String) (w : World) :
    spOk w (safePullPhase env im cid w) := by
  unfold safePullPhase
  by_cases hs : env.scannerName ≠ "none"
  · rw [if_pos hs]
    by_cases hd : isDigestBasedImage im = true
    · simp [hd, spOk]
    · have hd2 : isDigestBasedImage im = false := by
        cases hc : isDigestBasedImage im
        · rfl
        · exact absurd hc hd
      simp only [hd2, Bool.false_eq_true, if_false]
      cases env.pullSafe with
      | error e =>
        apply pullCatch_spOk
        simp [evWriteCount, wlen, evW]
      | ok u =>
        cases env.getImageIdCall with
        | error e =>
          apply pullCatch_spOk
          simp [evWriteCount, wlen, evW]
        | ok u2 =>
          cases happ : (applyPull w.engine (normalizeRef im) env.pulledImageId).tags
              (normalizeRef im) with
          | none =>
            simp only [emit_engine, happ]
            apply pullCatch_spOk
            simp [evWriteCount, wlen, evW]
          | some newImageId =>
            simp only [emit_engine, happ]
            cases env.tagRestore with
            | error e =>
              apply pullCatch_spOk
              simp [evWriteCount, wlen, evW]
            | ok u3 =>
              cases env.tagTemp with
              | error e =>
                apply pullCatch_spOk
                simp [evWriteCount, wlen, evW]
              | ok u4 =>
                cases env.scanNew with
                | error e =>
                  apply scanCatch_spOk
                  simp [evWriteCount, wlen, evW]
                | ok rs =>
                  by_cases hl : 0 < rs.length
                  · simp only [hl, if_true]
                    by_cases hb : (shouldBlockUpdate env.criteria (combineScanSummaries rs)
                        (currentSummaryOf env)).blocked = true
                    · simp only [hb, if_true]
                      cases env.removeTempBlock with
                      | error e =>
                        apply scanCatch_spOk
                        simp only [wlen_emit]
                        simp [evWriteCount, wlen, evW, terminalWrites_emitCurrentScanEvent]
                      | ok u5 =>
                        simp only [spOk, wlen_emit]
                        simp [evWriteCount, wlen, evW, terminalWrites_emitCurrentScanEvent]
                    · have hb2 : (shouldBlockUpdate env.criteria (combineScanSummaries rs)
                          (currentSummaryOf env)).blocked = false := by
                        cases hc : (shouldBlockUpdate env.criteria (combineScanSummaries rs)
                          (currentSummaryOf env)).blocked
                        · rfl
                        · exact absurd hc hb
                      simp only [hb2, Bool.false_eq_true, if_false]
                      apply approvedRetag_spOk
                      simp [evWriteCount, wlen, evW, terminalWrites_emitCurrentScanEvent]
                  · simp only [hl, if_false]
                    apply approvedRetag_spOk
                    simp [evWriteCount, wlen, evW]
  · rw [if_neg hs]
    cases env.pullPlain with
    | error e => simp [spOk, evWriteCount, wlen, evW]
    | ok u => simp [spOk, evWriteCount, wlen, evW]

theorem outerFail_wlen (w : World) (e : String) :
    wlen (outerFail w e) = wlen w + 1 := by
  simp [outerFail, evWriteCount]

theorem routerPhase_wlen (env : Env) (cn : String) (b : Bool) (w : World) :
    wlen (routerPhase env cn b w) = wlen w + 1 := by
  unfold routerPhase
  by_cases hb : b = true
  · rw [hb]
    simp only [if_true]
    by_cases hs : (updateStackContainer env w).1 = true
    · rw [hs]
      simp only [if_true]
      simp [evWriteCount, updateStackContainer_wlen]
    · have hs' : (updateStackContainer env w).1 = false := by
        cases hc : (updateStackContainer env w).1
        · rfl
        · exact absurd hc hs
      rw [hs']
      simp only [Bool.false_eq_true, if_false]
      by_cases hrec : (recreateContainer env cn (emit (updateStackContainer env w).2
          .warnDegradedFidelity)).1 = true
      · rw [hrec]
        simp only [if_true]
        simp [evWriteCount, recreateContainer_wlen, updateStackContainer_wlen]
      · have hrec' : (recreateContainer env cn (emit (updateStackContainer env w).2
            .warnDegradedFidelity)).1 = false := by
          cases hc : (recreateContainer env cn (emit (updateStackContainer env w).2
            .warnDegradedFidelity)).1
          · rfl
          · exact absurd hc hrec
        rw [hrec']
        simp only [Bool.false_eq_true, if_false]
        simp [evWriteCount, recreateContainer_wlen, updateStackContainer_wlen]
  · have hb' : b = false := by
      cases b
      · rfl
      · exact absurd rfl hb
    rw [hb']
    simp only [Bool.false_eq_true, if_false]
    by_cases hrec : (recreateContainer env cn w).1 = true
    · rw [hrec]
      simp only [if_true]
      simp [evWriteCount, recreateContainer_wlen]
    · have hrec' : (recreateContainer env cn w).1 = false := by
        cases hc : (recreateContainer env cn w).1
        · rfl
        · exact absurd hc hrec
      rw [hrec']
      simp only [Bool.false_eq_true, if_false]
      simp [evWriteCount, recreateContainer_wlen]

/-- C6: an execution record is never mutated after a terminal status is
recorded: every invocation of `runContainerUpdate` performs at most one
terminal ledger write, on every control path including the top-level
error handler, for every environment behaviour and initial engine
state. -/
theorem C6_at_most_one_terminal_write (env : Env) (cn : String) (s0 : EngineState) :
    (terminalWrites (runContainerUpdate env cn s0).trace).length ≤ 1 := by
  show wlen (runContainerUpdate env cn s0) ≤ 1
  unfold runContainerUpdate
  cases env.listContainersCall with
  | error e =>
    rw [outerFail_wlen]
    simp [evWriteCount, wlen, evW]
  | ok u =>
    simp only [emit_engine]
    cases hfind : s0.containers.find? (fun c => c.name == cn) with
    | none => simp [hfind, evWriteCount, wlen, evW]
    | some c =>
      simp only [hfind]
      cases env.inspectCall with
      | error e =>
        rw [outerFail_wlen]
        simp [evWriteCount, wlen, evW]
      | ok u2 =>
        cases him : c.configImage with
        | none => simp [him, evWriteCount, wlen, evW]
        | some im =>
          cases hsys : isSystemContainer im with
          | some k => simp [him, hsys, evWriteCount, wlen, evW]
          | none =>
            by_cases hd : isDigestBasedImage im = true
            · simp [him, hsys, hd, evWriteCount, wlen, evW]
            · have hd2 : isDigestBasedImage im = false := by
                cases hc : isDigestBasedImage im
                · rfl
                · exact absurd hc hd
              simp only [him, hsys, hd2, Bool.false_eq_true, if_false]
              cases env.registryCheckCall with
              | error e =>
                rw [outerFail_wlen]
                simp [evWriteCount, wlen, evW]
              | ok rc =>
                by_cases hloc : rc.isLocalImage = true
                · simp [hloc, evWriteCount, wlen, evW]
                · have hloc2 : rc.isLocalImage = false := by
                    cases hc : rc.isLocalImage
                    · rfl
                    · exact absurd hc hloc
                  simp only [hloc2, Bool.false_eq_true, if_false]
                  cases herr : rc.error with
                  | some err => simp [herr, evWriteCount, wlen, evW]
                  | none =>
                    by_cases hupd : rc.hasUpdate = true
                    · simp only [herr, hupd, if_true]
                      split
                      · rename_i w2 heq
                        have hsp := safePullPhase_spOk env im c.image
                          (emit (emit (emit (⟨s0, []⟩ : World) .listContainersEv)
                            .inspectEv) .registryCheck)
                        rw [heq] at hsp
                        simp only [spOk] at hsp
                        rw [hsp]
                        simp [evWriteCount, wlen, evW]
                      · rename_i w2 heq
                        have hsp := safePullPhase_spOk env im c.image
                          (emit (emit (emit (⟨s0, []⟩ : World) .listContainersEv)
                            .inspectEv) .registryCheck)
                        rw [heq] at hsp
                        simp only [spOk] at hsp
                        rw [routerPhase_wlen, hsp]
                        simp [evWriteCount, wlen, evW]
                    · have hupd2 : rc.hasUpdate = false := by
                        cases hc : rc.hasUpdate
                        · rfl
                        · exact absurd hc hupd
                      simp [herr, hupd2, evWriteCount, wlen, evW]

/-! ## Compose-aware routing (claim C3) -/

/-- A container that belongs to compose stack shop, service api. -/
def stackC : ContainerC :=
  ⟨"cid-3", "api-1", "sha256:aaa", some "app:1.0", true,
   [("com.docker.compose.project", "shop"), ("com.docker.compose.service", "api")],
   "bridge", []⟩

def s0stack : EngineState :=
  ⟨fun k => if k = "app:1.0" then some "sha256:aaa" else none,
   fun i => i = "sha256:aaa", [stackC]⟩

/-- The stack definition is known but compose re-convergence reports
failure; scanning disabled. -/
def envStackKnownFail : Env :=
  { baseEnv with
    scannerName := "none"
    stackCompose := .ok (some "services:")
    stackUp := .ok ⟨false, none, some "compose up failed"⟩ }

/-- C3 counterexample: a run on a compose-stack container whose stack
definition is known to the system (the compose file lookup succeeds), in
which stack re-convergence is attempted and fails, and the task then
falls back to the single-container Recreator (a create step runs) —
refuting the claim that the fallback happens only when the stack
definition is unknown. -/
theorem C3_counterexample_known_stack_fallback :
    envStackKnownFail.stackCompose = .ok (some "services:") ∧
    Ev.composeUp ∈ (runContainerUpdate envStackKnownFail "api-1" s0stack).trace ∧
    Ev.createEv ∈ (runContainerUpdate envStackKnownFail "api-1" s0stack).trace ∧
    Ev.warnDegradedFidelity ∈ (runContainerUpdate envStackKnownFail "api-1" s0stack).trace ∧
    terminalWrites (runContainerUpdate envStackKnownFail "api-1" s0stack).trace =
      [⟨.success, none, none, none⟩] := by
  refine ⟨rfl, ?_, ?_, ?_, ?_⟩ <;> decide

theorem recreateAfterStop_trace_shape (env : Env) (c : ContainerC) (b : Bool) (w : World) :
    ∃ tl, (recreateAfterStop env c b w).2.trace = w.trace ++ .removeEv :: tl := by
  unfold recreateAfterStop
  cases env.rRemove with
  | error e => exact ⟨[], by simp⟩
  | ok u =>
    cases env.rCreate with
    | error e => exact ⟨[.createEv], by simp⟩
    | ok newId =>
      by_cases hb : b = true
      · rw [hb]
        cases env.rStart with
        | error e =>
          exact ⟨.createEv :: (connectDelta env (computeAdditionalNetworks c) ++ [.startEv]),
            by simp⟩
        | ok u2 =>
          exact ⟨.createEv :: (connectDelta env (computeAdditionalNetworks c) ++ [.startEv]),
            by simp⟩
      · have hb2 : b = false := by
          cases b
          · rfl
          · exact absurd rfl hb
        rw [hb2]
        simp only [Bool.false_eq_true, if_false]
        exact ⟨.createEv :: connectDelta env (computeAdditionalNetworks c), by simp⟩

theorem recreateContainer_trace_shape (env : Env) (cn : String) (w : World) :
    ∃ tl, (recreateContainer env cn w).2.trace = w.trace ++ .listContainersEv :: tl := by
  unfold recreateContainer
  simp only [emit_engine]
  cases env.rListCall with
  | error e => exact ⟨[], by simp⟩
  | ok u =>
    cases hfind : w.engine.containers.find? (fun c => c.name == cn) with
    | none => exact ⟨[], by simp [hfind]⟩
    | some c =>
      simp only [hfind]
      cases env.rInspectCall with
      | error e => exact ⟨[.inspectEv], by simp⟩
      | ok u2 =>
        by_cases hr : c.running = true
        · rw [hr]
          cases env.rStop with
          | error e => exact ⟨[.inspectEv, .stopEv], by simp⟩
          | ok u3 =>
            simp only [if_true]
            obtain ⟨tl, htl⟩ := recreateAfterStop_trace_shape env c true
              ⟨setRunning w.engine c.id false,
               (emit (emit (emit w .listContainersEv) .inspectEv) .stopEv).trace⟩
            refine ⟨.inspectEv :: .stopEv :: .removeEv :: tl, ?_⟩
            rw [htl]
            simp
        · have hr2 : c.running = false := by
            cases hc : c.running
            · rfl
            · exact absurd hc hr
          rw [hr2]
          simp only [Bool.false_eq_true, if_false]
          obtain ⟨tl, htl⟩ := recreateAfterStop_trace_shape env c false
            (emit (emit w .listContainersEv) .inspectEv)
          refine ⟨.inspectEv :: .removeEv :: tl, ?_⟩
          rw [htl]
          simp

/-- When stack handling reports failure (unknown definition, failed
convergence, or a thrown call), the router logs the degraded-fidelity
warning and falls back to `recreateContainer`, whose first step follows
in the trace. -/
theorem routerFallback_shape (env : Env) (cn : String) (w w1 : World)
    (hstack : updateStackContainer env w = (false, w1)) :
    ∃ tl, (routerPhase env cn true w).trace =
      w1.trace ++ .warnDegradedFidelity :: .listContainersEv :: tl := by
  obtain ⟨tl, htl⟩ := recreateContainer_trace_shape env cn (emit w1 .warnDegradedFidelity)
  unfold routerPhase
  rw [hstack]
  simp only [if_true, Bool.false_eq_true, if_false]
  by_cases hrec : (recreateContainer env cn (emit w1 .warnDegradedFidelity)).1 = true
  · rw [hrec]
    simp only [if_true]
    refine ⟨tl ++ [.writeTerminal ⟨.success, none, none, none⟩,
      .notify "auto_update_success"], ?_⟩
    simp [htl]
  · have hrec2 : (recreateContainer env cn (emit w1 .warnDegradedFidelity)).1 = false := by
      cases hcc : (recreateContainer env cn (emit w1 .warnDegradedFidelity)).1
      · rfl
      · exact absurd hcc hrec
    rw [hrec2]
    simp only [Bool.false_eq_true, if_false]
    refine ⟨tl ++ [.writeTerminal ⟨.failed, none, none,
      some "Failed to recreate container"⟩, .notify "auto_update_failed"], ?_⟩
    simp [htl]

/-- C3 (amended): for a compose-stack container, the router delegates to
stack re-convergence whenever the stack definition is known; if
re-convergence succeeds the run completes with a success write and never
invokes the single-container Recreator; the task falls back to
single-container recreation, surfacing the degraded-fidelity warning,
when the stack definition is unknown or when the stack re-convergence
attempt does not succeed — whether re-convergence reports failure, the
convergence call throws, or the definition lookup itself throws. -/
theorem C3_router_amended_spec (env : Env) (cn : String) (w : World) :
    (∀ f res, env.stackCompose = .ok (some f) → env.stackUp = .ok res →
      res.success = true →
      routerPhase env cn true w =
        ⟨w.engine, w.trace ++ [.stackLookup, .composeUp,
          .writeTerminal ⟨.success, none, none, none⟩, .notify "auto_update_success"]⟩) ∧
    (env.stackCompose = .ok none →
      ∃ tl, (routerPhase env cn true w).trace =
        w.trace ++ .stackLookup :: .warnDegradedFidelity :: .listContainersEv :: tl) ∧
    (∀ f res, env.stackCompose = .ok (some f) → env.stackUp = .ok res →
      res.success = false →
      ∃ tl, (routerPhase env cn true w).trace =
        w.trace ++ .stackLookup :: .composeUp :: .warnDegradedFidelity ::
          .listContainersEv :: tl) ∧
    (∀ f e, env.stackCompose = .ok (some f) → env.stackUp = .error e →
      ∃ tl, (routerPhase env cn true w).trace =
        w.trace ++ .stackLookup :: .composeUp :: .warnDegradedFidelity ::
          .listContainersEv :: tl) ∧
    (∀ e, env.stackCompose = .error e →
      ∃ tl, (routerPhase env cn true w).trace =
        w.trace ++ .stackLookup :: .warnDegradedFidelity :: .listContainersEv :: tl) := by
  refine ⟨?_, ?_, ?_, ?_, ?_⟩
  · intro f res hc hu hs
    simp [routerPhase, updateStackContainer, hc, hu, hs, emit]
  · intro hc
    have hstack : updateStackContainer env w = (false, emit w .stackLookup) := by
      simp [updateStackContainer, hc]
    obtain ⟨tl, htl⟩ := routerFallback_shape env cn w (emit w .stackLookup) hstack
    exact ⟨tl, by simp [htl]⟩
  · intro f res hc hu hs
    have hstack : updateStackContainer env w =
        (false, emit (emit w .stackLookup) .composeUp) := by
      simp [updateStackContainer, hc, hu, hs]
    obtain ⟨tl, htl⟩ := routerFallback_shape env cn w
      (emit (emit w .stackLookup) .composeUp) hstack
    exact ⟨tl, by simp [htl]⟩
  · intro f e hc hu
    have hstack : updateStackContainer env w =
        (false, emit (emit w .stackLookup) .composeUp) := by
      simp [updateStackContainer, hc, hu]
    obtain ⟨tl, htl⟩ := routerFallback_shape env cn w
      (emit (emit w .stackLookup) .composeUp) hstack
    exact ⟨tl, by simp [htl]⟩
  · intro e hc
    have hstack : updateStackContainer env w = (false, emit w .stackLookup) := by
      simp [updateStackContainer, hc]
    obtain ⟨tl, htl⟩ := routerFallback_shape env cn w (emit w .stackLookup) hstack
    exact ⟨tl, by simp [htl]⟩

/-- The compose file is known but the convergence call throws. -/
def envStackUpThrows : Env :=
  { baseEnv with
    stackCompose := .ok (some "services:")
    stackUp := .error "socket closed" }

/-- The compose-file lookup itself throws. -/
def envStackLookupThrows : Env :=
  { baseEnv with stackCompose := .error "db error" }

theorem C3_router_amended_spec_witness :
    routerPhase { baseEnv with stackCompose := .ok (some "services:") } "api-1" true
        ⟨s0stack, []⟩ =
      ⟨s0stack, [.stackLookup, .composeUp, .writeTerminal ⟨.success, none, none, none⟩,
        .notify "auto_update_success"]⟩ ∧
    (∃ tl, (routerPhase baseEnv "api-1" true ⟨s0stack, []⟩).trace =
      .stackLookup :: .warnDegradedFidelity :: .listContainersEv :: tl) ∧
    (∃ tl, (routerPhase envStackKnownFail "api-1" true ⟨s0stack, []⟩).trace =
      .stackLookup :: .composeUp :: .warnDegradedFidelity :: .listContainersEv :: tl) ∧
    (∃ tl, (routerPhase envStackUpThrows "api-1" true ⟨s0stack, []⟩).trace =
      .stackLookup :: .composeUp :: .warnDegradedFidelity :: .listContainersEv :: tl) ∧
    (∃ tl, (routerPhase envStackLookupThrows "api-1" true ⟨s0stack, []⟩).trace =
      .stackLookup :: .warnDegradedFidelity :: .listContainersEv :: tl) := by
  refine ⟨?_, ?_, ?_, ?_, ?_⟩
  · exact (C3_router_amended_spec { baseEnv with stackCompose := .ok (some "services:") }
      "api-1" ⟨s0stack, []⟩).1 "services:" ⟨true, none, none⟩ rfl rfl rfl
  · exact (C3_router_amended_spec baseEnv "api-1" ⟨s0stack, []⟩).2.1 rfl
  · exact (C3_router_amended_spec envStackKnownFail "api-1" ⟨s0stack, []⟩).2.2.1
      "services:" ⟨false, none, some "compose up failed"⟩ rfl rfl rfl
  · exact (C3_router_amended_spec envStackUpThrows "api-1" ⟨s0stack, []⟩).2.2.2.1
      "services:" "socket closed" rfl rfl
  · exact (C3_router_amended_spec envStackLookupThrows "api-1" ⟨s0stack, []⟩).2.2.2.2
      "db error" rfl

/-! ## Fixtures and witnesses for the recreation claims -/

def netConfA : NetConf := ⟨["svc-alias"], [], none, none, none⟩

/-- A running container attached to two secondary networks. -/
def multiNetC : ContainerC :=
  ⟨"cid-4", "web-4", "sha256:aaa", some "app:1.0", true, [], "bridge",
   [("net-a", netConfA), ("net-b", netConfA)]⟩

def s0multi : EngineState := ⟨fun _ => none, fun _ => false, [multiNetC]⟩

/-- Connecting to net-a fails, connecting to anything else succeeds. -/
def envNetFail : Env :=
  { baseEnv with rConnect := fun n => if n = "net-a" then .error "subnet exhausted" else .ok () }

theorem C8_network_reconnect_failures_nonfatal_witness :
    (recreateContainer envNetFail "web-4" ⟨s0multi, []⟩).1 = true ∧
    (∀ n ∈ computeAdditionalNetworks multiNetC,
      Ev.connectEv n.name ∈ (recreateContainer envNetFail "web-4" ⟨s0multi, []⟩).2.trace) ∧
    (∀ n ∈ computeAdditionalNetworks multiNetC, ∀ e, envNetFail.rConnect n.name = .error e →
      Ev.warnNetworkConnectFailed n.name ∈
        (recreateContainer envNetFail "web-4" ⟨s0multi, []⟩).2.trace) ∧
    Ev.startEv ∈ (recreateContainer envNetFail "web-4" ⟨s0multi, []⟩).2.trace :=
  C8_network_reconnect_failures_nonfatal envNetFail "web-4" s0multi multiNetC "cid-new"
    rfl (by decide) rfl rfl rfl rfl rfl rfl

/-- A stopped container with no secondary networks. -/
def stoppedC : ContainerC :=
  ⟨"cid-5", "web-5", "sha256:aaa", some "app:1.0", false, [], "bridge", []⟩

def s0stopped : EngineState := ⟨fun _ => none, fun _ => false, [stoppedC]⟩

theorem C9_start_iff_was_running_witness :
    (recreateContainer baseEnv "web-5" ⟨s0stopped, []⟩).1 = true ∧
    ((Ev.stopEv ∈ (recreateContainer baseEnv "web-5" ⟨s0stopped, []⟩).2.trace) ↔
      stoppedC.running = true) ∧
    ((Ev.startEv ∈ (recreateContainer baseEnv "web-5" ⟨s0stopped, []⟩).2.trace) ↔
      stoppedC.running = true) ∧
    (stoppedC.running = false →
      ∃ cN ∈ (recreateContainer baseEnv "web-5" ⟨s0stopped, []⟩).2.engine.containers,
        cN.id = "cid-new" ∧ cN.running = false ∧ cN.name = stoppedC.name) :=
  C9_start_iff_was_running baseEnv "web-5" s0stopped stoppedC "cid-new"
    rfl (by decide) rfl rfl rfl rfl rfl

end Dockhand
